import Mathlib

/-!
# Face-Privacy-Filter: a shallow embedding of `src/main.cpp`

The program is one translation unit: a global `privacyMode`, the trackbar
callback `onTrackbar`, the mosaic helper `applyPixelation` and `main`, whose
frame loop mirrors each captured frame, detects faces and edits every detected
rectangle according to `privacyMode`.

Images are modelled as total pixel functions with explicit dimensions.  The
OpenCV calls whose effect is pure integer geometry (`Mat::operator()(Rect)`,
`cv::flip`, `cv::rectangle`, the size checks of `cv::resize`) are modelled
concretely; the sample values computed by the numeric kernels (Gaussian
weights, interpolation, grey conversion) and the cascade detector are fields
of the structure `OpenCV`, over which every statement is universally
quantified.  An uncaught `cv::Exception` is an `Except.error`.
-/

namespace FacePrivacyFilter

/-! ## Data model -/

/-- One sample of a `CV_8UC3` image in OpenCV channel order (blue, green, red).
A `cv::Scalar` colour is written with the same three components. -/
structure Pixel where
  b : Nat
  g : Nat
  r : Nat
deriving DecidableEq, Repr

/-- The type `cv::Size`. -/
structure Size where
  width : Int
  height : Int
deriving DecidableEq, Repr

/-- The type `cv::Rect`: top-left corner and extent, all of C++ type `int`. -/
structure Rect where
  x : Int
  y : Int
  width : Int
  height : Int
deriving DecidableEq, Repr

/-- A three-channel `cv::Mat` that owns its pixels: `px row col` is the sample
at that position; values at positions outside `rows x cols` carry no meaning. -/
structure Mat where
  rows : Nat
  cols : Nat
  px : Int → Int → Pixel

/-- A single-channel `cv::Mat`, as produced by `cv::cvtColor(.., COLOR_BGR2GRAY)`. -/
structure GrayMat where
  rows : Nat
  cols : Nat
  px : Int → Int → Nat

/-- A `cv::Mat` header that aliases the rectangle `roi` of `parent`
(what `frame(face)` evaluates to).  Writing through the header changes
`parent` inside `roi` and nowhere else. -/
structure View where
  parent : Mat
  roi : Rect

/-- The interpolation flags of `cv::resize` that the program uses. -/
inductive Interpolation where
  | INTER_NEAREST
  | INTER_LINEAR
deriving DecidableEq, Repr

/-- The parts of OpenCV that are numeric kernels or trained models.  Each field
gives the value the library computes; nothing is assumed about them. -/
structure OpenCV where
  /-- Grey level `cvtColor(.., COLOR_BGR2GRAY)` assigns to one BGR sample. -/
  gray : Pixel → Nat
  /-- Result of `CascadeClassifier::detectMultiScale(image, objects, scaleFactor,
  minNeighbors, flags, minSize)`. -/
  detectMultiScale : GrayMat → Rat → Int → Int → Size → List Rect
  /-- Sample that `GaussianBlur(src, .., ksize, sigmaX)` computes for position
  `(row, col)` of `src`; it may read the parent image around the view. -/
  gaussianSample : View → Size → Rat → Int → Int → Pixel
  /-- Sample that `resize(src, .., dsize, 0, 0, interpolation)` computes for
  position `(row, col)` of the destination. -/
  resizeSample : Mat → Size → Interpolation → Int → Int → Pixel

/-- The test `Mat::empty()`. -/
def Mat.empty (m : Mat) : Bool :=
  m.rows == 0 || m.cols == 0

/-- The call `Mat::operator()(const Rect&)`: the view of `m` on `roi`.  OpenCV
asserts that the rectangle lies inside the matrix and throws otherwise. -/
def Mat.roi (m : Mat) (roi : Rect) : Except String View :=
  if 0 ≤ roi.x ∧ 0 ≤ roi.width ∧ roi.x + roi.width ≤ m.cols ∧
      0 ≤ roi.y ∧ 0 ≤ roi.height ∧ roi.y + roi.height ≤ m.rows then
    .ok { parent := m, roi := roi }
  else
    .error "cv::Exception: Mat::operator()(Rect): roi outside the matrix"

/-- Field `cols` of a view header. -/
def View.cols (v : View) : Int := v.roi.width

/-- Field `rows` of a view header. -/
def View.rows (v : View) : Int := v.roi.height

/-- The call `Mat::size()` on a view header. -/
def View.size (v : View) : Size := { width := v.roi.width, height := v.roi.height }

/-- The test `Mat::empty()` on a view header. -/
def View.empty (v : View) : Bool :=
  decide (v.roi.width ≤ 0) || decide (v.roi.height ≤ 0)

/-- The pixels seen through a view header, as a matrix of their own. -/
def View.toMat (v : View) : Mat :=
  { rows := v.roi.height.toNat
    cols := v.roi.width.toNat
    px := fun row col => v.parent.px (v.roi.y + row) (v.roi.x + col) }

/-- Writing a full image of samples through a view header: position
`(row, col)` of the view, i.e. `(roi.y + row, roi.x + col)` of the parent,
receives `src row col`; the parent is untouched elsewhere. -/
def View.store (v : View) (src : Int → Int → Pixel) : View :=
  { roi := v.roi
    parent :=
      { rows := v.parent.rows
        cols := v.parent.cols
        px := fun row col =>
          if v.roi.y ≤ row ∧ row < v.roi.y + v.roi.height ∧
              v.roi.x ≤ col ∧ col < v.roi.x + v.roi.width then
            src (row - v.roi.y) (col - v.roi.x)
          else v.parent.px row col } }

/-! ## OpenCV calls used by the program -/

/-- The call `cv::flip(src, dst, flipCode)`: positive codes mirror around the
vertical axis, zero around the horizontal axis, negative codes around both. -/
def flip (src : Mat) (flipCode : Int) : Mat :=
  { rows := src.rows
    cols := src.cols
    px := fun row col =>
      if 0 < flipCode then src.px row ((src.cols : Int) - 1 - col)
      else if flipCode = 0 then src.px ((src.rows : Int) - 1 - row) col
      else src.px ((src.rows : Int) - 1 - row) ((src.cols : Int) - 1 - col) }

/-- The call `cv::cvtColor(src, dst, cv::COLOR_BGR2GRAY)`, a per-sample map. -/
def cvtColor (cv : OpenCV) (src : Mat) : GrayMat :=
  { rows := src.rows
    cols := src.cols
    px := fun row col => cv.gray (src.px row col) }

/-- The call `cv::GaussianBlur(src, src, ksize, sigmaX)` on a view, in place:
the destination header is the source header, so the samples land in the view. -/
def GaussianBlur (cv : OpenCV) (src : View) (ksize : Size) (sigmaX : Rat) : View :=
  src.store (cv.gaussianSample src ksize sigmaX)

/-- The call `cv::resize(src, dst, dsize, 0, 0, interpolation)` with both scale
factors zero, as the program always calls it.  OpenCV asserts a non-empty
source, and with zero scale factors also a `dsize` with positive width and
height; a failed assertion throws. -/
def resize (cv : OpenCV) (src : Mat) (dsize : Size) (interpolation : Interpolation) :
    Except String Mat :=
  if src.empty then
    .error "cv::Exception: resize: !ssize.empty()"
  else if dsize.width ≤ 0 ∨ dsize.height ≤ 0 then
    .error "cv::Exception: resize: inv_scale_x > 0"
  else
    .ok { rows := dsize.height.toNat
          cols := dsize.width.toNat
          px := cv.resizeSample src dsize interpolation }

/-- The constant `cv::FILLED`. -/
def FILLED : Int := -1

/-- The call `cv::rectangle(img, rec, color, thickness)` with the default line
type, for a rectangle inside the image (the program takes `frame(face)`, which
throws for any other, before it draws).  An empty `rec` draws nothing.
Otherwise the corners are `rec.tl()` and `rec.br() - (1, 1)`.  A negative
thickness fills the closed rectangle between them.  A thickness `t` of 0, 1
or 2 strokes the four edges, and OpenCV widens a stroke symmetrically about
the edge by `t / 2` samples to either side: for the `t = 2` the program passes,
each edge is three samples wide and reaches one sample outside the rectangle
(the round caps OpenCV adds at the corners have radius 1 and stay within the
strokes; the wider caps of a larger thickness are not modelled).  Drawing is
clipped to the image. -/
def rectangle (img : Mat) (rec : Rect) (color : Pixel) (thickness : Int) : Mat :=
  if rec.width ≤ 0 ∨ rec.height ≤ 0 then img
  else
    { rows := img.rows
      cols := img.cols
      px := fun row col =>
        let x0 := rec.x
        let y0 := rec.y
        let x1 := rec.x + rec.width - 1
        let y1 := rec.y + rec.height - 1
        let h := thickness / 2
        if 0 ≤ row ∧ row < img.rows ∧ 0 ≤ col ∧ col < img.cols then
          if thickness < 0 then
            if y0 ≤ row ∧ row ≤ y1 ∧ x0 ≤ col ∧ col ≤ x1 then color else img.px row col
          else if (x0 ≤ col ∧ col ≤ x1 ∧
                    ((y0 - h ≤ row ∧ row ≤ y0 + h) ∨ (y1 - h ≤ row ∧ row ≤ y1 + h))) ∨
                  (y0 ≤ row ∧ row ≤ y1 ∧
                    ((x0 - h ≤ col ∧ col ≤ x0 + h) ∨ (x1 - h ≤ col ∧ col ≤ x1 + h))) then
            color
          else img.px row col
        else img.px row col }

/-! ## The program -/

/-- The initialiser of the global `int privacyMode = 0;`. -/
def privacyModeInit : Int := 0

/-- The callback `void onTrackbar(int value, void*)`: the new value of the
global `privacyMode` after the call (the old value is overwritten). -/
def onTrackbar (value : Int) (_privacyMode : Int) : Int :=
  value

/-- The function `void applyPixelation(cv::Mat& faceROI, int pixelSize)`: the
view after the call, or the exception a `cv::resize` throws. -/
def applyPixelation (cv : OpenCV) (faceROI : View) (pixelSize : Int) : Except String View :=
  if faceROI.empty || decide (pixelSize ≤ 1) then .ok faceROI
  else
    match resize cv faceROI.toMat
        { width := Int.tdiv faceROI.cols pixelSize, height := Int.tdiv faceROI.rows pixelSize }
        .INTER_LINEAR with
    | .error e => .error e
    | .ok temp =>
      match resize cv temp faceROI.size .INTER_NEAREST with
      | .error e => .error e
      | .ok out => .ok (faceROI.store out.px)

/-- The body of `for (const auto &face : faces)` in `main`, lines 59-73: the
frame after the body ran for `face` while the global held `privacyMode`. -/
def filterFace (cv : OpenCV) (privacyMode : Int) (frame : Mat) (face : Rect) :
    Except String Mat :=
  match frame.roi face with
  | .error e => .error e
  | .ok faceROI =>
    if privacyMode = 2 then
      .ok (GaussianBlur cv faceROI { width := 55, height := 55 } 0).parent
    else if privacyMode = 3 then
      match applyPixelation cv faceROI 10 with
      | .error e => .error e
      | .ok v => .ok v.parent
    else if privacyMode = 4 then
      .ok (rectangle frame face { b := 0, g := 0, r := 0 } FILLED)
    else if privacyMode = 1 then
      .ok (rectangle frame face { b := 0, g := 255, r := 255 } 2)
    else
      .ok frame

/-- The loop `for (const auto &face : faces) { .. }` of `main`, lines 58-74,
when nothing writes `privacyMode` while it runs. -/
def processFaces (cv : OpenCV) (privacyMode : Int) : Mat → List Rect → Except String Mat
  | frame, [] => .ok frame
  | frame, face :: faces =>
    match filterFace cv privacyMode frame face with
    | .error e => .error e
    | .ok frame => processFaces cv privacyMode frame faces

/-- The loop of lines 58-74 with writes to the global `privacyMode` landing
between regions: `writes i`, when present, is stored into the global just
before the body runs for the region of index `i`.  The body reads the global
itself (lines 61, 64, 67, 70), so it sees the value current at that moment.
Returns the frame and the value the global holds after the loop. -/
def processFacesInterleaved (cv : OpenCV) (writes : Nat → Option Int) :
    Nat → Int → Mat → List Rect → Except String (Mat × Int)
  | _, privacyMode, frame, [] => .ok (frame, privacyMode)
  | i, privacyMode, frame, face :: faces =>
    let privacyMode :=
      match writes i with
      | some value => onTrackbar value privacyMode
      | none => privacyMode
    match filterFace cv privacyMode frame face with
    | .error e => .error e
    | .ok frame => processFacesInterleaved cv writes (i + 1) privacyMode frame faces

/-- Lines 47-74 of `main`: one captured, non-empty frame is mirrored, converted
to grey, searched for faces and filtered; the result is what line 77 shows. -/
def processFrame (cv : OpenCV) (privacyMode : Int) (frame : Mat) : Except String Mat :=
  let frame := flip frame 1
  let gray := cvtColor cv frame
  let faces := cv.detectMultiScale gray (11 / 10) 3 0 { width := 30, height := 30 }
  processFaces cv privacyMode frame faces

/-- The conversion of line 80, `char key = cv::waitKey(30);`: an `int` narrowed
to an 8-bit `char` keeps its low byte (read here as a signed byte; comparing
with the code of `q`, below 128, gives the same result for an unsigned one). -/
def toChar (c : Int) : Int :=
  (c + 128) % 256 - 128

/-- The test of line 81, `if (key == 'q') break;`, on the `int` that
`cv::waitKey` returned. -/
def quitKey (c : Int) : Bool :=
  toChar c == 113

/-- Everything outside the program that a run of `main` depends on. -/
structure World where
  /-- Result of `faceCascade.load(faceCascadePath)`. -/
  cascadeLoads : Bool
  /-- Result of `cap.isOpened()`. -/
  capOpened : Bool
  /-- The frame that the `n`-th execution of `cap >> frame` delivers. -/
  frames : Nat → Mat
  /-- The value that the `n`-th execution of `cv::waitKey(30)` returns. -/
  keys : Nat → Int
  /-- The trackbar positions for which the window system invokes `onTrackbar`
  while the `n`-th `cv::waitKey(30)` processes events, in order. -/
  trackbar : Nat → List Int

/-- How the process ended. -/
inductive Exit where
  /-- The function `main` returned this value. -/
  | returned (code : Int)
  /-- An exception left `main` uncaught. -/
  | terminated (what : String)
deriving DecidableEq, Repr

/-- The variables of the frame loop together with a record of its calls. -/
structure Loop where
  /-- The global `privacyMode`. -/
  privacyMode : Int
  /-- Number of executions of `cap >> frame` so far. -/
  acquired : Nat
  /-- Number of calls of `detectMultiScale` so far. -/
  detections : Nat
  /-- The frames passed to `cv::imshow` so far, oldest first. -/
  presented : List Mat

/-- What a finished run of `main` did. -/
structure Run where
  /-- Lines written to `std::cerr`. -/
  stderr : List String
  /-- Number of executions of `cap >> frame`. -/
  acquired : Nat
  /-- Number of calls of `detectMultiScale`. -/
  detections : Nat
  /-- The frames passed to `cv::imshow`, oldest first. -/
  presented : List Mat
  /-- Exit status. -/
  exit : Exit

/-- Outcome of one pass through the body of `while (true)`. -/
inductive Step where
  /-- A `break` was taken (or an exception escaped) and the process ended
  as recorded. -/
  | done (run : Run)
  /-- The body reached its end; the loop goes round again in this state. -/
  | next (s : Loop)

/-- One pass through the body of `while (true) { .. }`, lines 44-81, started
in state `s`.  A `break` leads to the cleanup and `return 0` of lines 85-87. -/
def iteration (cv : OpenCV) (w : World) (s : Loop) : Step :=
  let frame := w.frames s.acquired
  if frame.empty then
    .done { stderr := [], acquired := s.acquired + 1, detections := s.detections,
            presented := s.presented, exit := .returned 0 }
  else
    match processFrame cv s.privacyMode frame with
    | .error e =>
      .done { stderr := [], acquired := s.acquired + 1, detections := s.detections + 1,
              presented := s.presented, exit := .terminated e }
    | .ok frame =>
      let c := w.keys s.acquired
      let privacyMode := (w.trackbar s.acquired).foldl (fun m value => onTrackbar value m)
        s.privacyMode
      if quitKey c then
        .done { stderr := [], acquired := s.acquired + 1, detections := s.detections + 1,
                presented := s.presented ++ [frame], exit := .returned 0 }
      else
        .next { privacyMode := privacyMode, acquired := s.acquired + 1,
                detections := s.detections + 1, presented := s.presented ++ [frame] }

/-- The loop `while (true) { .. }` of `main` run for at most `fuel` passes;
`none` when that many passes did not end it. -/
def frameLoop (cv : OpenCV) (w : World) : Nat → Loop → Option Run
  | 0, _ => none
  | fuel + 1, s =>
    match iteration cv w s with
    | .done run => some run
    | .next s => frameLoop cv w fuel s

/-- The function `int main()`. -/
def main (cv : OpenCV) (w : World) (fuel : Nat) : Option Run :=
  if !w.cascadeLoads then
    some { stderr := ["Error loading face cascade file: haarcascade_frontalface_default.xml"],
           acquired := 0, detections := 0, presented := [], exit := .returned (-1) }
  else if !w.capOpened then
    some { stderr := ["Error opening video stream!"],
           acquired := 0, detections := 0, presented := [], exit := .returned (-1) }
  else
    frameLoop cv w fuel
      { privacyMode := privacyModeInit, acquired := 0, detections := 0, presented := [] }

/-! ## The specification's vocabulary -/

/-- The enumeration `Mode` of the specification. -/
inductive Mode where
  | NONE
  | OUTLINE
  | BLUR
  | PIXELATE
  | OCCLUDE_BLACK
deriving DecidableEq, Repr

/-- The numeric value of each mode: 0 none, 1 outline, 2 blur, 3 pixelate,
4 occlude. -/
def Mode.ofInt (m : Int) : Option Mode :=
  if m = 0 then some .NONE
  else if m = 1 then some .OUTLINE
  else if m = 2 then some .BLUR
  else if m = 3 then some .PIXELATE
  else if m = 4 then some .OCCLUDE_BLACK
  else none

/-- The transform the specification assigns to each mode, applied to the
region `face` of `frame`: nothing; an unfilled rectangle of stroke width 2;
a blur with a 55 x 55 kernel; `applyPixelation` with block size 10; a black
fill. -/
def selectedTransform (cv : OpenCV) (mode : Mode) (frame : Mat) (face : Rect) :
    Except String Mat :=
  match frame.roi face with
  | .error e => .error e
  | .ok faceROI =>
    match mode with
    | .NONE => .ok frame
    | .OUTLINE => .ok (rectangle frame face { b := 0, g := 255, r := 255 } 2)
    | .BLUR => .ok (GaussianBlur cv faceROI { width := 55, height := 55 } 0).parent
    | .PIXELATE =>
      match applyPixelation cv faceROI 10 with
      | .error e => .error e
      | .ok v => .ok v.parent
    | .OCCLUDE_BLACK => .ok (rectangle frame face { b := 0, g := 0, r := 0 } FILLED)

/-- The regions handled one after the other, first to last, each by the
transform of `mode`, stopping at the first exception. -/
def applyInOrder (cv : OpenCV) (mode : Mode) : Mat → List Rect → Except String Mat
  | frame, [] => .ok frame
  | frame, face :: faces =>
    match selectedTransform cv mode frame face with
    | .error e => .error e
    | .ok frame => applyInOrder cv mode frame faces

/-- A `FaceRegion` of the specification: positive extent, inside the frame. -/
def Rect.validIn (r : Rect) (frame : Mat) : Prop :=
  0 < r.width ∧ 0 < r.height ∧ 0 ≤ r.x ∧ 0 ≤ r.y ∧
    r.x + r.width ≤ frame.cols ∧ r.y + r.height ≤ frame.rows

/-- The sample at `(row, col)` belongs to the rectangle. -/
def Rect.inside (r : Rect) (row col : Int) : Prop :=
  r.y ≤ row ∧ row < r.y + r.height ∧ r.x ≤ col ∧ col < r.x + r.width

/-- The sample at `(row, col)` is at most one sample away, inside or outside,
from an edge of the rectangle. -/
def Rect.nearEdge (r : Rect) (row col : Int) : Prop :=
  r.y - 1 ≤ row ∧ row ≤ r.y + r.height ∧ r.x - 1 ≤ col ∧ col ≤ r.x + r.width ∧
    (row ≤ r.y + 1 ∨ r.y + r.height - 2 ≤ row ∨ col ≤ r.x + 1 ∨ r.x + r.width - 2 ≤ col)

/-- The postcondition of the cascade detector: every reported rectangle lies
inside the searched image and is at least `minSize` large. -/
def DetectorContract (cv : OpenCV) : Prop :=
  ∀ (image : GrayMat) (scaleFactor : Rat) (minNeighbors flags : Int) (minSize : Size)
    (r : Rect), r ∈ cv.detectMultiScale image scaleFactor minNeighbors flags minSize →
      0 ≤ r.x ∧ 0 ≤ r.y ∧ r.x + r.width ≤ image.cols ∧ r.y + r.height ≤ image.rows ∧
        minSize.width ≤ r.width ∧ minSize.height ≤ r.height

/-- The value of `privacyMode` at the start of pass `n` of the frame loop:
the initial 0, overwritten by every callback of the earlier passes. -/
def modeAt (w : World) : Nat → Int
  | 0 => privacyModeInit
  | n + 1 => (w.trackbar n).foldl (fun m value => onTrackbar value m) (modeAt w n)

/-- The value of `privacyMode` just before the write scheduled for the region
of index `i` lands, when the region loop started with `m` and the writes
`writes` land as described at `processFacesInterleaved`. -/
def modeBefore (writes : Nat → Option Int) (m : Int) : Nat → Int
  | 0 => m
  | i + 1 => (writes i).getD (modeBefore writes m i)

/-- The value of `privacyMode` that the loop body reads for the region of index
`i`: the latest write landed up to then, else the value at the loop start. -/
def modeSeen (writes : Nat → Option Int) (m : Int) (i : Nat) : Int :=
  modeBefore writes m (i + 1)

/-- The regions handled first to last, the region of index `i` by the loop
body run with the mode value `modes i`. -/
def applyPerRegion (cv : OpenCV) (modes : Nat → Int) : Nat → Mat → List Rect → Except String Mat
  | _, frame, [] => .ok frame
  | i, frame, face :: faces =>
    match filterFace cv (modes i) frame face with
    | .error e => .error e
    | .ok frame => applyPerRegion cv modes (i + 1) frame faces

/-- The frames shown by the end of a pass through the loop body. -/
def Step.presented : Step → List Mat
  | .done run => run.presented
  | .next s => s.presented

/-- The pass ended the loop. -/
def Step.stops : Step → Bool
  | .done _ => true
  | .next _ => false

/-! ## Concrete inputs used by the examples -/

/-- An instance of the library whose kernels return mid-grey samples and whose
detector finds nothing. -/
def cvNoFaces : OpenCV :=
  { gray := fun p => (p.b + p.g + p.r) / 3
    detectMultiScale := fun _ _ _ _ _ => []
    gaussianSample := fun _ _ _ _ _ => { b := 128, g := 128, r := 128 }
    resizeSample := fun _ _ _ _ _ => { b := 128, g := 128, r := 128 } }

/-- An instance of the library whose detector reports the given regions on
every image. -/
def cvFaces (faces : List Rect) : OpenCV :=
  { cvNoFaces with detectMultiScale := fun _ _ _ _ _ => faces }

/-- A world in which both resources are available, the camera delivers `n`
white 4 x 4 frames and then an empty one, and `cv::waitKey` returns `key`
on every poll; nobody moves the trackbar. -/
def camera (n : Nat) (key : Int) : World :=
  { cascadeLoads := true
    capOpened := true
    frames := fun i =>
      if i < n then { rows := 4, cols := 4, px := fun _ _ => { b := 255, g := 255, r := 255 } }
      else { rows := 0, cols := 0, px := fun _ _ => { b := 0, g := 0, r := 0 } }
    keys := fun _ => key
    trackbar := fun _ => [] }

/-- A white image. -/
def white (rows cols : Nat) : Mat :=
  { rows := rows, cols := cols, px := fun _ _ => { b := 255, g := 255, r := 255 } }

/-- An instance of the library whose detector reports the top-left 30 x 30
square of every image that has room for it, unless `minSize` asks for more. -/
def cvCornerFace : OpenCV :=
  { cvNoFaces with
    detectMultiScale := fun image _ _ _ minSize =>
      if 30 ≤ image.rows ∧ 30 ≤ image.cols ∧ minSize.width ≤ 30 ∧ minSize.height ≤ 30 then
        [⟨0, 0, 30, 30⟩]
      else [] }

/-- A world in which both resources are available, the camera delivers two
white 40 x 40 frames and then an empty one, no key is pressed, and the user
moves the trackbar to 3 during the first pass. -/
def studio : World :=
  { cascadeLoads := true
    capOpened := true
    frames := fun i => if i < 2 then white 40 40 else white 0 0
    keys := fun _ => -1
    trackbar := fun i => if i = 0 then [3] else [] }

/-- An image whose sample at `(row, col)` encodes its position. -/
def gradient (rows cols : Nat) : Mat :=
  { rows := rows, cols := cols
    px := fun row col => { b := row.toNat % 256, g := col.toNat % 256, r := 7 } }

/-! ## Facts about the loop body -/

theorem roi_ok (frame : Mat) (face : Rect)
    (h : 0 ≤ face.x ∧ 0 ≤ face.width ∧ face.x + face.width ≤ frame.cols ∧
      0 ≤ face.y ∧ 0 ≤ face.height ∧ face.y + face.height ≤ frame.rows) :
    frame.roi face = .ok { parent := frame, roi := face } := by
  unfold Mat.roi
  rw [if_pos h]

/-- The if-chain of lines 61-73 agrees with the dispatch table on 0..4. -/
theorem filterFace_eq_selected (cv : OpenCV) (m : Int) (mode : Mode)
    (hm : Mode.ofInt m = some mode) (frame : Mat) (face : Rect) :
    filterFace cv m frame face = selectedTransform cv mode frame face := by
  have h04 : m = 0 ∨ m = 1 ∨ m = 2 ∨ m = 3 ∨ m = 4 := by
    unfold Mode.ofInt at hm
    by_contra hne
    simp only [not_or] at hne
    obtain ⟨h0, h1, h2, h3, h4⟩ := hne
    simp [h0, h1, h2, h3, h4] at hm
  unfold filterFace selectedTransform
  rcases h04 with h | h | h | h | h <;> subst h <;>
    simp [Mode.ofInt] at hm <;> subst hm <;>
    cases frame.roi face <;> simp

/-! ## C1 -/

/-- C1: for every frame, every list of detected regions and every mode value
`m` in 0..4, the region loop of `main` applies to each region, in the order
of the list, exactly the transform of the table: 0 nothing, 1 the unfilled
rectangle of stroke width 2, 2 the 55 x 55 blur, 3 `applyPixelation` with
block size 10, 4 the black fill. -/
theorem C1_dispatch_selects_transform (cv : OpenCV) (m : Int) (frame : Mat)
    (faces : List Rect) (h0 : 0 ≤ m) (h4 : m ≤ 4) :
    ∃ mode, Mode.ofInt m = some mode ∧
      processFaces cv m frame faces = applyInOrder cv mode frame faces := by
  have hex : ∃ mode, Mode.ofInt m = some mode := by
    have h04 : m = 0 ∨ m = 1 ∨ m = 2 ∨ m = 3 ∨ m = 4 := by omega
    rcases h04 with h | h | h | h | h <;> subst h <;> simp [Mode.ofInt]
  obtain ⟨mode, hmode⟩ := hex
  refine ⟨mode, hmode, ?_⟩
  induction faces generalizing frame with
  | nil => rfl
  | cons face rest ih =>
    simp only [processFaces, applyInOrder]
    rw [filterFace_eq_selected cv m mode hmode]
    cases selectedTransform cv mode frame face with
    | error e => rfl
    | ok f => exact ih f

/-- C1 at a concrete input: mode 4 on two regions of a white 10 x 10 frame. -/
theorem C1_dispatch_selects_transform_witness :
    ∃ mode, Mode.ofInt 4 = some mode ∧
      processFaces cvNoFaces 4 (white 10 10) [⟨1, 1, 3, 3⟩, ⟨5, 5, 2, 2⟩] =
        applyInOrder cvNoFaces mode (white 10 10) [⟨1, 1, 3, 3⟩, ⟨5, 5, 2, 2⟩] :=
  C1_dispatch_selects_transform cvNoFaces 4 (white 10 10) [⟨1, 1, 3, 3⟩, ⟨5, 5, 2, 2⟩]
    (by decide) (by decide)

/-! ## C4 -/

/-- The guard of line 15: a block size of at most 1 leaves the view as it is. -/
theorem applyPixelation_blockSize_le_one (cv : OpenCV) (faceROI : View) (pixelSize : Int)
    (h : pixelSize ≤ 1) : applyPixelation cv faceROI pixelSize = .ok faceROI := by
  unfold applyPixelation
  simp [h]

/-- The guard of line 15 misses the zero-sized intermediate: for a non-empty
region and a block size above 1, whenever the region is narrower or lower
than the block size, line 17 asks `cv::resize` for a size with a zero
dimension and the call throws. -/
theorem applyPixelation_small_region_throws (cv : OpenCV) (faceROI : View) (pixelSize : Int)
    (hne : faceROI.empty = false) (hp : 1 < pixelSize)
    (hsmall : faceROI.cols < pixelSize ∨ faceROI.rows < pixelSize) :
    applyPixelation cv faceROI pixelSize = .error "cv::Exception: resize: inv_scale_x > 0" := by
  unfold View.empty at hne
  simp only [Bool.or_eq_false_iff, decide_eq_false_iff_not, not_le] at hne
  obtain ⟨hw, hh⟩ := hne
  have hsrc : faceROI.toMat.empty = false := by
    unfold Mat.empty View.toMat
    simp only [Bool.or_eq_false_iff, beq_eq_false_iff_ne, ne_eq]
    constructor <;> omega
  have hd : Int.tdiv faceROI.cols pixelSize ≤ 0 ∨ Int.tdiv faceROI.rows pixelSize ≤ 0 := by
    unfold View.cols View.rows at *
    rcases hsmall with h | h
    · left; rw [Int.tdiv_eq_zero_of_lt (le_of_lt hw) h]
    · right; rw [Int.tdiv_eq_zero_of_lt (le_of_lt hh) h]
  unfold applyPixelation
  have hguard : (faceROI.empty || decide (pixelSize ≤ 1)) = false := by
    unfold View.empty
    simp only [Bool.or_eq_false_iff, decide_eq_false_iff_not, not_le]
    exact ⟨⟨hw, hh⟩, hp⟩
  rw [hguard]
  unfold resize
  simp only [hsrc, Bool.false_eq_true, if_false, if_pos hd]

/-- C4 (the code departs from the claim): on a 5 x 5 region with block size 10,
where the claim requires the region to be left unchanged without failing,
`applyPixelation` fails with the exception thrown by `cv::resize`, whatever
the library's kernels compute. -/
theorem C4_small_region_throws (cv : OpenCV) :
    applyPixelation cv { parent := white 5 5, roi := ⟨0, 0, 5, 5⟩ } 10 =
      .error "cv::Exception: resize: inv_scale_x > 0" :=
  applyPixelation_small_region_throws cv { parent := white 5 5, roi := ⟨0, 0, 5, 5⟩ } 10
    (by decide) (by decide) (by decide)

/-! ## C6 -/

/-- C6 as stated fails: from the initial mode 0 the setter called with 7
leaves `privacyMode` at 7, outside 0..4. -/
theorem C6_out_of_range_value_is_stored :
    ¬ (0 ≤ onTrackbar 7 privacyModeInit ∧ onTrackbar 7 privacyModeInit ≤ 4) := by
  decide

/-- C6 amended: `onTrackbar` stores every value it is given, in range or not,
whatever the previous mode; hence after any sequence of setter calls whose
values all lie in 0..4, started from the initial 0, `privacyMode` lies in
0..4 after each call. -/
theorem C6_setter_stores_value (values : List Int)
    (hrange : ∀ v ∈ values, 0 ≤ v ∧ v ≤ 4) :
    (∀ v previous : Int, onTrackbar v previous = v) ∧
      ∀ k : Nat,
        0 ≤ (values.take k).foldl (fun m value => onTrackbar value m) privacyModeInit ∧
          (values.take k).foldl (fun m value => onTrackbar value m) privacyModeInit ≤ 4 := by
  refine ⟨fun _ _ => rfl, fun k => ?_⟩
  have hpre : ∀ v ∈ values.take k, 0 ≤ v ∧ v ≤ 4 :=
    fun v hv => hrange v (List.mem_of_mem_take hv)
  have key : ∀ (l : List Int) (m : Int), (0 ≤ m ∧ m ≤ 4) → (∀ v ∈ l, 0 ≤ v ∧ v ≤ 4) →
      0 ≤ l.foldl (fun m value => onTrackbar value m) m ∧
        l.foldl (fun m value => onTrackbar value m) m ≤ 4 := by
    intro l
    induction l with
    | nil => intro m hm _; simpa using hm
    | cons a rest ih =>
      intro m _ hl
      simp only [List.foldl_cons]
      exact ih (onTrackbar a m) (hl a (List.mem_cons_self a rest))
        (fun v hv => hl v (List.mem_cons_of_mem a hv))
  exact key (values.take k) privacyModeInit (by decide) hpre

/-- C6 amended, at the calls 3, 0, 4. -/
theorem C6_setter_stores_value_witness :
    (∀ v previous : Int, onTrackbar v previous = v) ∧
      ∀ k : Nat,
        0 ≤ (([3, 0, 4] : List Int).take k).foldl (fun m value => onTrackbar value m)
            privacyModeInit ∧
          (([3, 0, 4] : List Int).take k).foldl (fun m value => onTrackbar value m)
            privacyModeInit ≤ 4 :=
  C6_setter_stores_value [3, 0, 4] (by decide)

/-! ## C8 -/

theorem quitKey_iff (c : Int) : quitKey c = true ↔ c % 256 = 113 := by
  unfold quitKey toChar
  simp only [beq_iff_eq]
  omega

/-- A pass over a non-empty frame whose processing succeeds ends the loop
exactly when the key test of line 81 fires. -/
theorem iteration_stops_iff (cv : OpenCV) (w : World) (s : Loop) (out : Mat)
    (hne : (w.frames s.acquired).empty = false)
    (hok : processFrame cv s.privacyMode (w.frames s.acquired) = .ok out) :
    (iteration cv w s).stops = quitKey (w.keys s.acquired) := by
  unfold iteration
  simp only [hne, hok, Bool.false_eq_true, if_false]
  cases quitKey (w.keys s.acquired) <;> simp [Step.stops]

/-- C8 as stated fails: the key code 369 is not 113, yet a pass that polls it
ends the loop (its low byte is that of `q`). -/
theorem C8_other_code_quits :
    (369 : Int) ≠ 113 ∧
      (iteration cvNoFaces
        { cascadeLoads := true, capOpened := true, frames := fun _ => white 4 4,
          keys := fun _ => 369, trackbar := fun _ => [] }
        { privacyMode := 0, acquired := 0, detections := 0, presented := [] }).stops = true := by
  constructor
  · decide
  · rfl

/-- C8 amended: in a pass that reaches the key poll (non-empty frame, processing
without exception) with polled code `c`, the loop ends on that poll if and
only if the low byte of `c` is 113, i.e. `c % 256 = 113`; in particular the
no-key value -1 and every code with another low byte are ignored and the loop
continues with the next pass. -/
theorem C8_quit_iff_low_byte (cv : OpenCV) (w : World) (s : Loop) (out : Mat)
    (hne : (w.frames s.acquired).empty = false)
    (hok : processFrame cv s.privacyMode (w.frames s.acquired) = .ok out) :
    ((iteration cv w s).stops = true ↔ w.keys s.acquired % 256 = 113) ∧
      (w.keys s.acquired % 256 ≠ 113 →
        ∃ s1, iteration cv w s = .next s1 ∧ s1.acquired = s.acquired + 1) ∧
      (w.keys s.acquired = -1 → (iteration cv w s).stops = false) := by
  have hstop := iteration_stops_iff cv w s out hne hok
  refine ⟨?_, ?_, ?_⟩
  · rw [hstop]; exact quitKey_iff _
  · intro hc
    have hq : quitKey (w.keys s.acquired) = false := by
      cases hqk : quitKey (w.keys s.acquired) with
      | false => rfl
      | true => exact absurd ((quitKey_iff _).mp hqk) hc
    unfold iteration
    simp only [hne, hok, hq, Bool.false_eq_true, if_false]
    exact ⟨_, rfl, rfl⟩
  · intro hc
    rw [hstop, hc]
    rfl

/-- C8 amended, at a pass over a white frame that polls 113. -/
theorem C8_quit_iff_low_byte_witness :
    ((iteration cvNoFaces
        { cascadeLoads := true, capOpened := true, frames := fun _ => white 4 4,
          keys := fun _ => 113, trackbar := fun _ => [] }
        { privacyMode := 0, acquired := 0, detections := 0, presented := [] }).stops = true ↔
        (113 : Int) % 256 = 113) ∧
      ((113 : Int) % 256 ≠ 113 →
        ∃ s1, iteration cvNoFaces
            { cascadeLoads := true, capOpened := true, frames := fun _ => white 4 4,
              keys := fun _ => 113, trackbar := fun _ => [] }
            { privacyMode := 0, acquired := 0, detections := 0, presented := [] } = .next s1 ∧
          s1.acquired = 0 + 1) ∧
      ((113 : Int) = -1 →
        (iteration cvNoFaces
          { cascadeLoads := true, capOpened := true, frames := fun _ => white 4 4,
            keys := fun _ => 113, trackbar := fun _ => [] }
          { privacyMode := 0, acquired := 0, detections := 0, presented := [] }).stops = false) :=
  C8_quit_iff_low_byte cvNoFaces
    { cascadeLoads := true, capOpened := true, frames := fun _ => white 4 4,
      keys := fun _ => 113, trackbar := fun _ => [] }
    { privacyMode := 0, acquired := 0, detections := 0, presented := [] }
    (flip (white 4 4) 1) rfl rfl

/-! ## C9 -/

/-- A pass over a non-empty frame whose processing succeeds shows the
processed frame. -/
theorem iteration_presents (cv : OpenCV) (w : World) (s : Loop) (out : Mat)
    (hne : (w.frames s.acquired).empty = false)
    (hok : processFrame cv s.privacyMode (w.frames s.acquired) = .ok out) :
    (iteration cv w s).presented = s.presented ++ [out] := by
  unfold iteration
  simp only [hne, hok, Bool.false_eq_true, if_false]
  cases quitKey (w.keys s.acquired) <;> simp [Step.presented]

/-- C9: whatever the mode, a pass of the frame loop over a non-empty input
frame on which the detector reports no region shows one more frame, the
horizontal mirror image of the input: same height and width, the sample at
column `col` of a row is the input sample at column `cols - 1 - col` of that
row, and so the columns `x .. x + width - 1` of the output are the columns
`cols - x - width .. cols - x - 1` of the input, reversed. -/
theorem C9_no_regions_presents_mirror (cv : OpenCV) (w : World) (s : Loop)
    (hne : (w.frames s.acquired).empty = false)
    (hdet : cv.detectMultiScale (cvtColor cv (flip (w.frames s.acquired) 1)) (11 / 10) 3 0
      { width := 30, height := 30 } = []) :
    ∃ out, (iteration cv w s).presented = s.presented ++ [out] ∧
      out.rows = (w.frames s.acquired).rows ∧ out.cols = (w.frames s.acquired).cols ∧
      (∀ row col : Int, out.px row col =
        (w.frames s.acquired).px row (((w.frames s.acquired).cols : Int) - 1 - col)) ∧
      (∀ row x width j : Int, out.px row (x + j) =
        (w.frames s.acquired).px row
          ((((w.frames s.acquired).cols : Int) - x - width) + (width - 1 - j))) := by
  have hok : processFrame cv s.privacyMode (w.frames s.acquired) =
      .ok (flip (w.frames s.acquired) 1) := by
    simp only [processFrame, hdet, processFaces]
  refine ⟨flip (w.frames s.acquired) 1, iteration_presents cv w s _ hne hok, rfl, rfl, ?_, ?_⟩
  · intro row col
    simp [flip]
  · intro row x width j
    simp only [flip]
    have hcol : ((w.frames s.acquired).cols : Int) - 1 - (x + j) =
        ((w.frames s.acquired).cols : Int) - x - width + (width - 1 - j) := by ring
    simp [hcol]

/-- C9 at a concrete pass: a 6 x 8 gradient frame, mode 2, no faces. -/
theorem C9_no_regions_presents_mirror_witness :
    ∃ out, (iteration cvNoFaces
        { cascadeLoads := true, capOpened := true, frames := fun _ => gradient 6 8,
          keys := fun _ => -1, trackbar := fun _ => [] }
        { privacyMode := 2, acquired := 0, detections := 0, presented := [] }).presented =
          [] ++ [out] ∧
      out.rows = (gradient 6 8).rows ∧ out.cols = (gradient 6 8).cols ∧
      (∀ row col : Int, out.px row col =
        (gradient 6 8).px row (((gradient 6 8).cols : Int) - 1 - col)) ∧
      (∀ row x width j : Int, out.px row (x + j) =
        (gradient 6 8).px row ((((gradient 6 8).cols : Int) - x - width) + (width - 1 - j))) :=
  C9_no_regions_presents_mirror cvNoFaces
    { cascadeLoads := true, capOpened := true, frames := fun _ => gradient 6 8,
      keys := fun _ => -1, trackbar := fun _ => [] }
    { privacyMode := 2, acquired := 0, detections := 0, presented := [] } rfl rfl

/-! ## Which samples each drawing call writes -/

/-- A filled rectangle inside the image paints exactly its own samples. -/
theorem rectangle_filled_px (img : Mat) (rec : Rect) (color : Pixel)
    (hin : 0 ≤ rec.x ∧ 0 ≤ rec.y ∧ rec.x + rec.width ≤ img.cols ∧
      rec.y + rec.height ≤ img.rows) (row col : Int) :
    (rec.inside row col → (rectangle img rec color FILLED).px row col = color) ∧
      (¬ rec.inside row col → (rectangle img rec color FILLED).px row col = img.px row col) := by
  unfold rectangle Rect.inside FILLED
  by_cases hempty : rec.width ≤ 0 ∨ rec.height ≤ 0
  · rw [if_pos hempty]
    constructor
    · intro h; omega
    · intro _; rfl
  · rw [if_neg hempty]
    constructor
    · intro h
      have h1 : 0 ≤ row ∧ row < (img.rows : Int) ∧ 0 ≤ col ∧ col < (img.cols : Int) := by omega
      have h2 : rec.y ≤ row ∧ row ≤ rec.y + rec.height - 1 ∧ rec.x ≤ col ∧
          col ≤ rec.x + rec.width - 1 := by omega
      simp only [if_pos h1, if_pos h2, show ((-1 : Int) < 0) by decide, if_true]
    · intro h
      simp only [show ((-1 : Int) < 0) by decide, if_true]
      split_ifs with h1 h2
      · exact absurd (by omega) h
      · rfl
      · rfl

/-- A rectangle stroked with thickness 2 changes no sample that is more than
one sample away from its edges, and none outside the image. -/
theorem rectangle_stroke2_changed (img : Mat) (rec : Rect) (color : Pixel) (row col : Int)
    (hdiff : (rectangle img rec color 2).px row col ≠ img.px row col) :
    rec.nearEdge row col ∧ 0 ≤ row ∧ row < img.rows ∧ 0 ≤ col ∧ col < img.cols := by
  unfold rectangle at hdiff
  by_cases hempty : rec.width ≤ 0 ∨ rec.height ≤ 0
  · rw [if_pos hempty] at hdiff
    exact absurd rfl hdiff
  · rw [if_neg hempty] at hdiff
    simp only [show ¬ ((2 : Int) < 0) by decide, if_false,
      show (2 : Int) / 2 = 1 by decide] at hdiff
    unfold Rect.nearEdge
    split_ifs at hdiff with h1 h2
    · refine ⟨?_, h1⟩
      omega
    · exact absurd rfl hdiff
    · exact absurd rfl hdiff

/-- Writing through a view leaves the parent as it was outside the view. -/
theorem store_px_outside (v : View) (src : Int → Int → Pixel) (row col : Int)
    (hout : ¬ v.roi.inside row col) :
    (v.store src).parent.px row col = v.parent.px row col := by
  unfold Rect.inside at hout
  simp only [View.store, if_neg hout]

/-- With a region at least 10 x 10 both calls of `cv::resize` in
`applyPixelation` succeed and the result is written through the view. -/
theorem applyPixelation_ok (cv : OpenCV) (faceROI : View)
    (hw : 10 ≤ faceROI.roi.width) (hh : 10 ≤ faceROI.roi.height) :
    ∃ src, applyPixelation cv faceROI 10 = .ok (faceROI.store src) := by
  have hguard : (faceROI.empty || decide ((10 : Int) ≤ 1)) = false := by
    unfold View.empty
    simp only [Bool.or_eq_false_iff, decide_eq_false_iff_not, not_le]
    refine ⟨⟨by omega, by omega⟩, by decide⟩
  have hsrc : faceROI.toMat.empty = false := by
    unfold Mat.empty View.toMat
    simp only [Bool.or_eq_false_iff, beq_eq_false_iff_ne, ne_eq]
    constructor <;> omega
  have hdw : Int.tdiv faceROI.cols 10 = faceROI.roi.width / 10 := by
    unfold View.cols
    exact Int.tdiv_eq_ediv (by omega) (by decide)
  have hdh : Int.tdiv faceROI.rows 10 = faceROI.roi.height / 10 := by
    unfold View.rows
    exact Int.tdiv_eq_ediv (by omega) (by decide)
  have hd : ¬ (faceROI.roi.width / 10 ≤ 0 ∨ faceROI.roi.height / 10 ≤ 0) := by omega
  have hd2 : ¬ (faceROI.roi.width ≤ 0 ∨ faceROI.roi.height ≤ 0) := by omega
  unfold applyPixelation
  rw [hguard]
  simp only [Bool.false_eq_true, if_false]
  unfold resize
  rw [hsrc, hdw, hdh]
  simp only [Bool.false_eq_true, if_false, if_neg hd]
  have htemp : (Mat.empty
      { rows := (faceROI.roi.height / 10).toNat, cols := (faceROI.roi.width / 10).toNat,
        px := cv.resizeSample faceROI.toMat
          { width := faceROI.roi.width / 10, height := faceROI.roi.height / 10 }
          .INTER_LINEAR }) = false := by
    unfold Mat.empty
    simp only [Bool.or_eq_false_iff, beq_eq_false_iff_ne, ne_eq]
    constructor <;> omega
  rw [htemp]
  simp only [Bool.false_eq_true, if_false, View.size, if_neg hd2]
  exact ⟨_, rfl⟩

theorem rectangle_rows (img : Mat) (rec : Rect) (color : Pixel) (thickness : Int) :
    (rectangle img rec color thickness).rows = img.rows := by
  unfold rectangle
  split <;> rfl

theorem rectangle_cols (img : Mat) (rec : Rect) (color : Pixel) (thickness : Int) :
    (rectangle img rec color thickness).cols = img.cols := by
  unfold rectangle
  split <;> rfl

/-- The loop body in mode 4 on a region inside the frame. -/
theorem filterFace_occlude (cv : OpenCV) (frame : Mat) (face : Rect)
    (hin : 0 ≤ face.x ∧ 0 ≤ face.width ∧ face.x + face.width ≤ frame.cols ∧
      0 ≤ face.y ∧ 0 ≤ face.height ∧ face.y + face.height ≤ frame.rows) :
    filterFace cv 4 frame face =
      .ok (rectangle frame face { b := 0, g := 0, r := 0 } FILLED) := by
  unfold filterFace
  rw [roi_ok frame face hin]
  simp

/-! ## C3 -/

/-- C3: a pass of the frame loop in mode 4 (OCCLUDE_BLACK) over a non-empty
input frame on which the detector reports the single region `r`, lying inside
the frame, shows one more frame, of the size of the input, in which every
sample with column in `[r.x, r.x + r.width)` and row in `[r.y, r.y + r.height)`
is exactly (0, 0, 0) and every other sample is the sample of the horizontally
mirrored input. -/
theorem C3_occlude_fills_region (cv : OpenCV) (w : World) (s : Loop) (r : Rect)
    (hne : (w.frames s.acquired).empty = false)
    (hmode : s.privacyMode = 4)
    (hdet : cv.detectMultiScale (cvtColor cv (flip (w.frames s.acquired) 1)) (11 / 10) 3 0
      { width := 30, height := 30 } = [r])
    (hin : 0 ≤ r.x ∧ 0 ≤ r.width ∧ r.x + r.width ≤ (w.frames s.acquired).cols ∧
      0 ≤ r.y ∧ 0 ≤ r.height ∧ r.y + r.height ≤ (w.frames s.acquired).rows) :
    ∃ out, (iteration cv w s).presented = s.presented ++ [out] ∧
      out.rows = (w.frames s.acquired).rows ∧ out.cols = (w.frames s.acquired).cols ∧
      ∀ row col : Int,
        (r.inside row col → out.px row col = { b := 0, g := 0, r := 0 }) ∧
        (¬ r.inside row col → out.px row col =
          (w.frames s.acquired).px row (((w.frames s.acquired).cols : Int) - 1 - col)) := by
  have hin1 : 0 ≤ r.x ∧ 0 ≤ r.width ∧ r.x + r.width ≤ (flip (w.frames s.acquired) 1).cols ∧
      0 ≤ r.y ∧ 0 ≤ r.height ∧ r.y + r.height ≤ (flip (w.frames s.acquired) 1).rows := hin
  have hok : processFrame cv s.privacyMode (w.frames s.acquired) =
      .ok (rectangle (flip (w.frames s.acquired) 1) r { b := 0, g := 0, r := 0 } FILLED) := by
    simp only [processFrame, hdet, processFaces, hmode, filterFace_occlude cv _ r hin1]
  refine ⟨_, iteration_presents cv w s _ hne hok, ?_, ?_, ?_⟩
  · rw [rectangle_rows]; rfl
  · rw [rectangle_cols]; rfl
  · intro row col
    have hpx := rectangle_filled_px (flip (w.frames s.acquired) 1) r { b := 0, g := 0, r := 0 }
      ⟨hin1.1, hin1.2.2.2.1, hin1.2.2.1, hin1.2.2.2.2.2⟩ row col
    refine ⟨hpx.1, fun hout => ?_⟩
    rw [hpx.2 hout]
    simp [flip]

/-- C3 at the region x = 50, y = 50, w = 100, h = 100 of a 200 x 300 frame. -/
theorem C3_occlude_fills_region_witness :
    ∃ out, (iteration (cvFaces [⟨50, 50, 100, 100⟩])
        { cascadeLoads := true, capOpened := true, frames := fun _ => gradient 200 300,
          keys := fun _ => -1, trackbar := fun _ => [] }
        { privacyMode := 4, acquired := 0, detections := 0, presented := [] }).presented =
          [] ++ [out] ∧
      out.rows = (gradient 200 300).rows ∧ out.cols = (gradient 200 300).cols ∧
      ∀ row col : Int,
        (Rect.inside ⟨50, 50, 100, 100⟩ row col → out.px row col = { b := 0, g := 0, r := 0 }) ∧
        (¬ Rect.inside ⟨50, 50, 100, 100⟩ row col → out.px row col =
          (gradient 200 300).px row (((gradient 200 300).cols : Int) - 1 - col)) :=
  C3_occlude_fills_region (cvFaces [⟨50, 50, 100, 100⟩])
    { cascadeLoads := true, capOpened := true, frames := fun _ => gradient 200 300,
      keys := fun _ => -1, trackbar := fun _ => [] }
    { privacyMode := 4, acquired := 0, detections := 0, presented := [] }
    ⟨50, 50, 100, 100⟩ rfl rfl rfl (by decide)

/-! ## C2 -/

/-- C2 as stated fails for OUTLINE: on a white 10 x 10 frame and the valid
region x = 3, y = 3, w = 4, h = 4, the transform of mode 1 changes the sample
at row 2, column 3, which lies outside the region, and the sample at row 4,
column 4, which is not a boundary sample of the region. -/
theorem C2_outline_writes_outside_region :
    Rect.validIn ⟨3, 3, 4, 4⟩ (white 10 10) ∧
      ∃ out, filterFace cvNoFaces 1 (white 10 10) ⟨3, 3, 4, 4⟩ = .ok out ∧
        (¬ Rect.inside ⟨3, 3, 4, 4⟩ 2 3 ∧ out.px 2 3 ≠ (white 10 10).px 2 3) ∧
        (out.px 4 4 ≠ (white 10 10).px 4 4) := by
  refine ⟨by unfold Rect.validIn; decide, _, rfl, ⟨?_, ?_⟩, ?_⟩
  · unfold Rect.inside; decide
  · decide
  · decide

/-- C2 amended: for every frame and every valid region `r` (positive width and
height, inside the frame), the transform the loop body applies for mode
NONE (0) returns the frame itself; for BLUR (2) and, when `r` is at least
10 x 10, for PIXELATE (3) it returns a frame of the same size that agrees with
the input at every sample outside `r`; for OCCLUDE_BLACK (4) it returns a
frame of the same size that is black at every sample of `r` and agrees with
the input at every other sample; for OUTLINE (1) it returns a frame of the
same size in which every sample that differs from the input lies in the image
and at most one sample away, inside or outside, from an edge of `r`. -/
theorem C2_transform_write_footprint (cv : OpenCV) (frame : Mat) (r : Rect)
    (hvalid : r.validIn frame) :
    filterFace cv 0 frame r = .ok frame ∧
    (∃ out, filterFace cv 2 frame r = .ok out ∧ out.rows = frame.rows ∧
      out.cols = frame.cols ∧
      ∀ row col : Int, ¬ r.inside row col → out.px row col = frame.px row col) ∧
    (10 ≤ r.width → 10 ≤ r.height →
      ∃ out, filterFace cv 3 frame r = .ok out ∧ out.rows = frame.rows ∧
        out.cols = frame.cols ∧
        ∀ row col : Int, ¬ r.inside row col → out.px row col = frame.px row col) ∧
    (∃ out, filterFace cv 4 frame r = .ok out ∧ out.rows = frame.rows ∧
      out.cols = frame.cols ∧
      ∀ row col : Int,
        (r.inside row col → out.px row col = { b := 0, g := 0, r := 0 }) ∧
        (¬ r.inside row col → out.px row col = frame.px row col)) ∧
    (∃ out, filterFace cv 1 frame r = .ok out ∧ out.rows = frame.rows ∧
      out.cols = frame.cols ∧
      ∀ row col : Int, out.px row col ≠ frame.px row col →
        r.nearEdge row col ∧ 0 ≤ row ∧ row < frame.rows ∧ 0 ≤ col ∧ col < frame.cols) := by
  obtain ⟨hw, hh, hx, hy, hxw, hyh⟩ := hvalid
  have hin : 0 ≤ r.x ∧ 0 ≤ r.width ∧ r.x + r.width ≤ frame.cols ∧
      0 ≤ r.y ∧ 0 ≤ r.height ∧ r.y + r.height ≤ frame.rows :=
    ⟨hx, le_of_lt hw, hxw, hy, le_of_lt hh, hyh⟩
  refine ⟨?_, ?_, ?_, ?_, ?_⟩
  · unfold filterFace
    rw [roi_ok frame r hin]
    simp
  · refine ⟨(GaussianBlur cv { parent := frame, roi := r } { width := 55, height := 55 } 0).parent,
      ?_, rfl, rfl, ?_⟩
    · unfold filterFace
      rw [roi_ok frame r hin]
      simp
    · intro row col hout
      exact store_px_outside { parent := frame, roi := r } _ row col hout
  · intro h10w h10h
    obtain ⟨src, hsrc⟩ := applyPixelation_ok cv { parent := frame, roi := r } h10w h10h
    refine ⟨(View.store { parent := frame, roi := r } src).parent, ?_, rfl, rfl, ?_⟩
    · unfold filterFace
      rw [roi_ok frame r hin]
      simp [hsrc]
    · intro row col hout
      exact store_px_outside { parent := frame, roi := r } _ row col hout
  · refine ⟨_, filterFace_occlude cv frame r hin, rectangle_rows _ _ _ _,
      rectangle_cols _ _ _ _, ?_⟩
    intro row col
    exact rectangle_filled_px frame r _ ⟨hx, hy, hxw, hyh⟩ row col
  · refine ⟨rectangle frame r { b := 0, g := 255, r := 255 } 2, ?_, rectangle_rows _ _ _ _,
      rectangle_cols _ _ _ _, ?_⟩
    · unfold filterFace
      rw [roi_ok frame r hin]
      simp
    · intro row col hdiff
      exact rectangle_stroke2_changed frame r _ row col hdiff

/-- C2 amended, at the region x = 5, y = 5, w = 20, h = 20 of a white
40 x 40 frame. -/
theorem C2_transform_write_footprint_witness :
    Rect.validIn ⟨5, 5, 20, 20⟩ (white 40 40) ∧
    filterFace cvNoFaces 0 (white 40 40) ⟨5, 5, 20, 20⟩ = .ok (white 40 40) ∧
    (∃ out, filterFace cvNoFaces 2 (white 40 40) ⟨5, 5, 20, 20⟩ = .ok out ∧
      out.rows = (white 40 40).rows ∧ out.cols = (white 40 40).cols ∧
      ∀ row col : Int, ¬ Rect.inside ⟨5, 5, 20, 20⟩ row col →
        out.px row col = (white 40 40).px row col) ∧
    ((10 : Int) ≤ 20 → (10 : Int) ≤ 20 →
      ∃ out, filterFace cvNoFaces 3 (white 40 40) ⟨5, 5, 20, 20⟩ = .ok out ∧
        out.rows = (white 40 40).rows ∧ out.cols = (white 40 40).cols ∧
        ∀ row col : Int, ¬ Rect.inside ⟨5, 5, 20, 20⟩ row col →
          out.px row col = (white 40 40).px row col) ∧
    (∃ out, filterFace cvNoFaces 4 (white 40 40) ⟨5, 5, 20, 20⟩ = .ok out ∧
      out.rows = (white 40 40).rows ∧ out.cols = (white 40 40).cols ∧
      ∀ row col : Int,
        (Rect.inside ⟨5, 5, 20, 20⟩ row col → out.px row col = { b := 0, g := 0, r := 0 }) ∧
        (¬ Rect.inside ⟨5, 5, 20, 20⟩ row col → out.px row col = (white 40 40).px row col)) ∧
    (∃ out, filterFace cvNoFaces 1 (white 40 40) ⟨5, 5, 20, 20⟩ = .ok out ∧
      out.rows = (white 40 40).rows ∧ out.cols = (white 40 40).cols ∧
      ∀ row col : Int, out.px row col ≠ (white 40 40).px row col →
        Rect.nearEdge ⟨5, 5, 20, 20⟩ row col ∧ 0 ≤ row ∧ row < (white 40 40).rows ∧
          0 ≤ col ∧ col < (white 40 40).cols) :=
  ⟨by unfold Rect.validIn; decide,
    C2_transform_write_footprint cvNoFaces (white 40 40) ⟨5, 5, 20, 20⟩
      (by unfold Rect.validIn; decide)⟩

/-! ## C5 -/

/-- With writes interleaved, the region of index `i` is handled with the value
the global holds when its turn comes. -/
theorem interleaved_eq_perRegion (cv : OpenCV) (writes : Nat → Option Int) (m : Int)
    (faces : List Rect) :
    ∀ (i : Nat) (frame : Mat),
      processFacesInterleaved cv writes i (modeBefore writes m i) frame faces =
        (applyPerRegion cv (modeSeen writes m) i frame faces).map
          (fun out => (out, modeBefore writes m (i + faces.length))) := by
  induction faces with
  | nil => intro i frame; rfl
  | cons face rest ih =>
    intro i frame
    have hcur : (match writes i with
        | some value => onTrackbar value (modeBefore writes m i)
        | none => modeBefore writes m i) = modeSeen writes m i := by
      unfold modeSeen
      simp only [modeBefore]
      cases writes i <;> rfl
    simp only [processFacesInterleaved, applyPerRegion, hcur]
    cases filterFace cv (modeSeen writes m i) frame face with
    | error e => rfl
    | ok f =>
      have h := ih (i + 1) f
      unfold modeSeen at h ⊢
      simp only [List.length_cons]
      rw [h]
      have hlen : i + 1 + rest.length = i + (rest.length + 1) := by omega
      rw [hlen]

/-- With no write landing while the loop runs, every region is handled with the
value the global held at the loop start, and the global keeps it. -/
theorem interleaved_no_write (cv : OpenCV) (writes : Nat → Option Int) (m : Int)
    (faces : List Rect) :
    ∀ (i : Nat) (frame : Mat), (∀ j, i ≤ j → j < i + faces.length → writes j = none) →
      processFacesInterleaved cv writes i m frame faces =
        (processFaces cv m frame faces).map (fun out => (out, m)) := by
  induction faces with
  | nil => intro i frame _; rfl
  | cons face rest ih =>
    intro i frame hnone
    have hi : writes i = none := hnone i (le_refl i) (by simp)
    simp only [processFacesInterleaved, processFaces, hi]
    cases filterFace cv m frame face with
    | error e => rfl
    | ok f =>
      exact ih (i + 1) f (fun j h1 h2 => hnone j (by omega) (by simp only [List.length_cons]; omega))

/-- C5 as stated fails: with two detected regions, mode 0 at the start of the
loop and the value 4 written between the first and the second region, the
second region is filled black in the same pass, whereas the transform of the
start value 0 would have left it white. -/
theorem C5_mid_loop_write_takes_effect :
    ∃ out snapshot,
      processFacesInterleaved cvNoFaces (fun i => if i = 1 then some 4 else none) 0 0
        (white 10 10) [⟨1, 1, 2, 2⟩, ⟨5, 5, 2, 2⟩] = .ok (out, 4) ∧
      processFaces cvNoFaces 0 (white 10 10) [⟨1, 1, 2, 2⟩, ⟨5, 5, 2, 2⟩] = .ok snapshot ∧
      out.px 5 5 = { b := 0, g := 0, r := 0 } ∧
      snapshot.px 5 5 = { b := 255, g := 255, r := 255 } :=
  ⟨_, _, rfl, rfl, by decide, by decide⟩

/-- C5 amended: the region loop reads `privacyMode` anew for every region.  With
writes to the global interleaved in the loop, the region of index `i` receives
the transform selected by the value the global holds when its turn comes (the
latest write landed up to then, otherwise the value at the start of the loop),
and the global keeps the last written value after the loop; if no write lands
between the regions, all regions receive the transform selected by the value
held at the start of the loop. -/
theorem C5_mode_read_per_region (cv : OpenCV) (writes : Nat → Option Int) (m : Int)
    (frame : Mat) (faces : List Rect) :
    processFacesInterleaved cv writes 0 m frame faces =
        (applyPerRegion cv (modeSeen writes m) 0 frame faces).map
          (fun out => (out, modeBefore writes m faces.length)) ∧
      ((∀ i, i < faces.length → writes i = none) →
        processFacesInterleaved cv writes 0 m frame faces =
          (processFaces cv m frame faces).map (fun out => (out, m))) := by
  constructor
  · have h := interleaved_eq_perRegion cv writes m faces 0 frame
    simpa [modeBefore] using h
  · intro hnone
    exact interleaved_no_write cv writes m faces 0 frame
      (fun j _ h2 => hnone j (by omega))

/-- C5 amended, at two regions: with the value 4 written before the second,
and with no write at all. -/
theorem C5_mode_read_per_region_witness :
    processFacesInterleaved cvNoFaces (fun i => if i = 1 then some 4 else none) 0 0
        (white 10 10) [⟨1, 1, 2, 2⟩, ⟨5, 5, 2, 2⟩] =
        (applyPerRegion cvNoFaces (modeSeen (fun i => if i = 1 then some 4 else none) 0) 0
          (white 10 10) [⟨1, 1, 2, 2⟩, ⟨5, 5, 2, 2⟩]).map
          (fun out => (out, modeBefore (fun i => if i = 1 then some 4 else none) 0
            ([⟨1, 1, 2, 2⟩, ⟨5, 5, 2, 2⟩] : List Rect).length)) ∧
      processFacesInterleaved cvNoFaces (fun _ => none) 0 3
          (white 10 10) [⟨1, 1, 2, 2⟩, ⟨5, 5, 2, 2⟩] =
        (processFaces cvNoFaces 3 (white 10 10) [⟨1, 1, 2, 2⟩, ⟨5, 5, 2, 2⟩]).map
          (fun out => (out, 3)) :=
  ⟨(C5_mode_read_per_region cvNoFaces (fun i => if i = 1 then some 4 else none) 0
      (white 10 10) [⟨1, 1, 2, 2⟩, ⟨5, 5, 2, 2⟩]).1,
    (C5_mode_read_per_region cvNoFaces (fun _ => none) 3
      (white 10 10) [⟨1, 1, 2, 2⟩, ⟨5, 5, 2, 2⟩]).2 (fun _ _ => rfl)⟩

/-! ## The frame loop under the detector's postcondition -/

/-- The loop body succeeds on a region inside the frame that is at least
10 x 10, whatever the mode, and keeps the size of the frame. -/
theorem filterFace_ok (cv : OpenCV) (m : Int) (frame : Mat) (r : Rect)
    (hin : 0 ≤ r.x ∧ 0 ≤ r.y ∧ r.x + r.width ≤ frame.cols ∧ r.y + r.height ≤ frame.rows)
    (hw : 10 ≤ r.width) (hh : 10 ≤ r.height) :
    ∃ out, filterFace cv m frame r = .ok out ∧ out.rows = frame.rows ∧
      out.cols = frame.cols := by
  have hroi : 0 ≤ r.x ∧ 0 ≤ r.width ∧ r.x + r.width ≤ frame.cols ∧
      0 ≤ r.y ∧ 0 ≤ r.height ∧ r.y + r.height ≤ frame.rows :=
    ⟨hin.1, by omega, hin.2.2.1, hin.2.1, by omega, hin.2.2.2⟩
  unfold filterFace
  rw [roi_ok frame r hroi]
  by_cases h2 : m = 2
  · simp only [h2, if_true]
    exact ⟨_, rfl, rfl, rfl⟩
  · by_cases h3 : m = 3
    · obtain ⟨src, hsrc⟩ := applyPixelation_ok cv { parent := frame, roi := r } hw hh
      simp only [h3, hsrc]
      exact ⟨_, rfl, rfl, rfl⟩
    · by_cases h4 : m = 4
      · simp only [h4]
        exact ⟨_, rfl, rectangle_rows _ _ _ _, rectangle_cols _ _ _ _⟩
      · by_cases h1 : m = 1
        · simp only [h1]
          exact ⟨_, rfl, rectangle_rows _ _ _ _, rectangle_cols _ _ _ _⟩
        · simp only [h2, h3, h4, h1, if_false]
          exact ⟨_, rfl, rfl, rfl⟩

/-- The region loop succeeds on regions that are all inside the frame and at
least 10 x 10, and keeps the size of the frame. -/
theorem processFaces_ok (cv : OpenCV) (m : Int) (faces : List Rect) :
    ∀ frame : Mat,
      (∀ r ∈ faces, 0 ≤ r.x ∧ 0 ≤ r.y ∧ r.x + r.width ≤ frame.cols ∧
        r.y + r.height ≤ frame.rows ∧ 10 ≤ r.width ∧ 10 ≤ r.height) →
      ∃ out, processFaces cv m frame faces = .ok out ∧ out.rows = frame.rows ∧
        out.cols = frame.cols := by
  induction faces with
  | nil => intro frame _; exact ⟨frame, rfl, rfl, rfl⟩
  | cons face rest ih =>
    intro frame hall
    obtain ⟨hx, hy, hxw, hyh, hw, hh⟩ := hall face (List.mem_cons_self face rest)
    obtain ⟨f, hf, hrows, hcols⟩ := filterFace_ok cv m frame face ⟨hx, hy, hxw, hyh⟩ hw hh
    have hrest : ∀ r ∈ rest, 0 ≤ r.x ∧ 0 ≤ r.y ∧ r.x + r.width ≤ f.cols ∧
        r.y + r.height ≤ f.rows ∧ 10 ≤ r.width ∧ 10 ≤ r.height := by
      intro r hr
      rw [hrows, hcols]
      exact hall r (List.mem_cons_of_mem face hr)
    obtain ⟨out, hout, hr2, hc2⟩ := ih f hrest
    refine ⟨out, ?_, by rw [hr2, hrows], by rw [hc2, hcols]⟩
    simp only [processFaces, hf, hout]

/-- With a detector that keeps its postcondition, processing a frame succeeds
and keeps its size. -/
theorem processFrame_ok (cv : OpenCV) (hc : DetectorContract cv) (m : Int) (frame : Mat) :
    ∃ out, processFrame cv m frame = .ok out ∧ out.rows = frame.rows ∧
      out.cols = frame.cols := by
  unfold processFrame
  apply processFaces_ok cv m _ (flip frame 1)
  intro r hr
  obtain ⟨hx, hy, hxw, hyh, hw, hh⟩ := hc _ _ _ _ _ r hr
  simp only at hw hh
  exact ⟨hx, hy, hxw, hyh, by omega, by omega⟩

/-- A pass over a non-empty frame that polls no quit key goes round again. -/
theorem iteration_next (cv : OpenCV) (w : World) (s : Loop) (out : Mat)
    (hne : (w.frames s.acquired).empty = false)
    (hok : processFrame cv s.privacyMode (w.frames s.acquired) = .ok out)
    (hkey : quitKey (w.keys s.acquired) = false) :
    iteration cv w s = .next
      { privacyMode := (w.trackbar s.acquired).foldl (fun m value => onTrackbar value m)
          s.privacyMode
        acquired := s.acquired + 1
        detections := s.detections + 1
        presented := s.presented ++ [out] } := by
  unfold iteration
  simp only [hne, hok, hkey, Bool.false_eq_true, if_false]

/-- A pass that acquires an empty frame ends the loop with exit code 0 and
shows nothing. -/
theorem iteration_stream_end (cv : OpenCV) (w : World) (s : Loop)
    (hempty : (w.frames s.acquired).empty = true) :
    iteration cv w s = .done
      { stderr := [], acquired := s.acquired + 1, detections := s.detections,
        presented := s.presented, exit := .returned 0 } := by
  unfold iteration
  simp only [hempty, if_true]

/-- The loop started in state `s`, fed `k` non-empty frames without a quit key
and then an empty frame, ends after `k + 1` acquisitions having detected on
and shown the `k` processed frames only. -/
theorem frameLoop_stream_end (cv : OpenCV) (hc : DetectorContract cv) (w : World) :
    ∀ (k fuel : Nat) (s : Loop), s.privacyMode = modeAt w s.acquired →
      (∀ i, i < k → (w.frames (s.acquired + i)).empty = false) →
      (∀ i, i < k → quitKey (w.keys (s.acquired + i)) = false) →
      (w.frames (s.acquired + k)).empty = true → k < fuel →
      ∃ run, frameLoop cv w fuel s = some run ∧ run.stderr = [] ∧
        run.acquired = s.acquired + k + 1 ∧ run.detections = s.detections + k ∧
        run.exit = .returned 0 ∧
        run.presented.map (Except.ok : Mat → Except String Mat) =
          s.presented.map (Except.ok : Mat → Except String Mat) ++
            (List.range k).map (fun i =>
              processFrame cv (modeAt w (s.acquired + i)) (w.frames (s.acquired + i))) ∧
        (∀ f ∈ run.presented, f ∈ s.presented ∨ f.empty = false) := by
  intro k
  induction k with
  | zero =>
    intro fuel s _ _ _ hend hfuel
    obtain ⟨fuel1, rfl⟩ : ∃ n, fuel = n + 1 := ⟨fuel - 1, by omega⟩
    refine ⟨{ stderr := [], acquired := s.acquired + 1, detections := s.detections,
              presented := s.presented, exit := .returned 0 }, ?_, rfl, rfl, rfl, rfl, ?_, ?_⟩
    · simp only [frameLoop, iteration_stream_end cv w s hend]
    · simp
    · intro f hf; exact Or.inl hf
  | succ k ih =>
    intro fuel s hmode hne hkey hend hfuel
    obtain ⟨fuel1, rfl⟩ : ∃ n, fuel = n + 1 := ⟨fuel - 1, by omega⟩
    have hne0 : (w.frames s.acquired).empty = false := by simpa using hne 0 (by omega)
    have hkey0 : quitKey (w.keys s.acquired) = false := by simpa using hkey 0 (by omega)
    obtain ⟨out, hout, hrows, hcols⟩ := processFrame_ok cv hc s.privacyMode (w.frames s.acquired)
    have houtne : out.empty = false := by
      unfold Mat.empty at hne0 ⊢
      rw [hrows, hcols]
      exact hne0
    have hstep := iteration_next cv w s out hne0 hout hkey0
    have hshift : ∀ i, s.acquired + 1 + i = s.acquired + (i + 1) := fun i => by omega
    obtain ⟨run, hrun, herr, hacq, hdet, hexit, hshown, hnonempty⟩ :=
      ih fuel1
        { privacyMode := (w.trackbar s.acquired).foldl (fun m value => onTrackbar value m)
            s.privacyMode
          acquired := s.acquired + 1
          detections := s.detections + 1
          presented := s.presented ++ [out] }
        (by simp only [modeAt, hmode])
        (fun i hi => by simpa only [hshift] using hne (i + 1) (by omega))
        (fun i hi => by simpa only [hshift] using hkey (i + 1) (by omega))
        (by simpa only [hshift] using hend)
        (by omega)
    refine ⟨run, ?_, herr, ?_, ?_, hexit, ?_, ?_⟩
    · simp only [frameLoop, hstep]
      exact hrun
    · simp only at hacq; omega
    · simp only at hdet; omega
    · rw [hshown]
      simp only [List.map_append, List.map_cons, List.map_nil, List.append_assoc,
        List.singleton_append, List.range_succ_eq_map, List.map_map, hshift]
      congr 1
      simp only [Nat.add_zero, ← hmode, hout, List.cons.injEq, true_and]
      apply List.map_congr_left
      intro i _
      simp only [Function.comp, Nat.succ_eq_add_one]
    · intro f hf
      rcases hnonempty f hf with h | h
      · simp only [List.mem_append, List.mem_singleton] at h
        rcases h with h | h
        · exact Or.inl h
        · exact Or.inr (by rw [h]; exact houtne)
      · exact Or.inr h

/-- The loop started in state `s` ends with exit code 0 as soon as a pass
acquires an empty frame or polls the quit key. -/
theorem frameLoop_exit_zero (cv : OpenCV) (hc : DetectorContract cv) (w : World) :
    ∀ (k fuel : Nat) (s : Loop),
      (∀ i, i < k → (w.frames (s.acquired + i)).empty = false) →
      (∀ i, i < k → quitKey (w.keys (s.acquired + i)) = false) →
      ((w.frames (s.acquired + k)).empty = true ∨ quitKey (w.keys (s.acquired + k)) = true) →
      k < fuel →
      ∃ run, frameLoop cv w fuel s = some run ∧ run.exit = .returned 0 ∧ run.stderr = [] := by
  intro k
  induction k with
  | zero =>
    intro fuel s _ _ hend hfuel
    obtain ⟨fuel1, rfl⟩ : ∃ n, fuel = n + 1 := ⟨fuel - 1, by omega⟩
    simp only [Nat.add_zero] at hend
    cases hemp : (w.frames s.acquired).empty with
    | true =>
      exact ⟨{ stderr := [], acquired := s.acquired + 1, detections := s.detections,
               presented := s.presented, exit := .returned 0 },
        by simp only [frameLoop, iteration_stream_end cv w s hemp], rfl, rfl⟩
    | false =>
      have hq : quitKey (w.keys s.acquired) = true := by
        rcases hend with h | h
        · rw [hemp] at h; cases h
        · exact h
      obtain ⟨out, hout, _, _⟩ := processFrame_ok cv hc s.privacyMode (w.frames s.acquired)
      refine ⟨{ stderr := [], acquired := s.acquired + 1, detections := s.detections + 1,
                presented := s.presented ++ [out], exit := .returned 0 }, ?_, rfl, rfl⟩
      simp only [frameLoop, iteration, hemp, hout, hq, Bool.false_eq_true, if_false, if_true]
  | succ k ih =>
    intro fuel s hne hkey hend hfuel
    obtain ⟨fuel1, rfl⟩ : ∃ n, fuel = n + 1 := ⟨fuel - 1, by omega⟩
    have hne0 : (w.frames s.acquired).empty = false := by simpa using hne 0 (by omega)
    have hkey0 : quitKey (w.keys s.acquired) = false := by simpa using hkey 0 (by omega)
    obtain ⟨out, hout, _, _⟩ := processFrame_ok cv hc s.privacyMode (w.frames s.acquired)
    have hstep := iteration_next cv w s out hne0 hout hkey0
    have hshift : ∀ i, s.acquired + 1 + i = s.acquired + (i + 1) := fun i => by omega
    obtain ⟨run, hrun, hexit, herr⟩ :=
      ih fuel1
        { privacyMode := (w.trackbar s.acquired).foldl (fun m value => onTrackbar value m)
            s.privacyMode
          acquired := s.acquired + 1
          detections := s.detections + 1
          presented := s.presented ++ [out] }
        (fun i hi => by simpa only [hshift] using hne (i + 1) (by omega))
        (fun i hi => by simpa only [hshift] using hkey (i + 1) (by omega))
        (by simpa only [hshift] using hend)
        (by omega)
    exact ⟨run, by simp only [frameLoop, hstep]; exact hrun, hexit, herr⟩

theorem cvNoFaces_contract : DetectorContract cvNoFaces := by
  intro image scaleFactor minNeighbors flags minSize r hr
  simp [cvNoFaces] at hr

theorem cvCornerFace_contract : DetectorContract cvCornerFace := by
  intro image scaleFactor minNeighbors flags minSize r hr
  simp only [cvCornerFace] at hr
  split at hr
  · rename_i h
    simp only [List.mem_singleton] at hr
    subst hr
    obtain ⟨h1, h2, h3, h4⟩ := h
    refine ⟨by decide, by decide, ?_, ?_, h3, h4⟩
    · show (0 : Int) + 30 ≤ image.cols
      omega
    · show (0 : Int) + 30 ≤ image.rows
      omega
  · simp at hr

/-! ## C7 -/

/-- C7: with a detector that keeps its postcondition and both resources
available, for every `K >= 1` and every capture sequence whose first `K - 1`
frames are non-empty and whose `K`-th frame is empty, if none of the first
`K - 1` key polls is the quit key, then `main` (given at least `K` passes)
ends with exit code 0 after `K` acquisitions, having called the detector
`K - 1` times and shown exactly `K - 1` frames, all non-empty: the processed
first `K - 1` frames, in order.  The empty frame is neither searched nor
shown. -/
theorem C7_stream_end_stops_loop (cv : OpenCV) (hc : DetectorContract cv) (w : World)
    (K fuel : Nat) (hload : w.cascadeLoads = true) (hopen : w.capOpened = true)
    (hK : 1 ≤ K)
    (hne : ∀ i, i < K - 1 → (w.frames i).empty = false)
    (hend : (w.frames (K - 1)).empty = true)
    (hkey : ∀ i, i < K - 1 → quitKey (w.keys i) = false)
    (hfuel : K ≤ fuel) :
    ∃ run, main cv w fuel = some run ∧ run.presented.length = K - 1 ∧
      run.detections = K - 1 ∧ run.acquired = K ∧ run.exit = .returned 0 ∧
      run.stderr = [] ∧ (∀ f ∈ run.presented, f.empty = false) ∧
      run.presented.map (Except.ok : Mat → Except String Mat) =
        (List.range (K - 1)).map (fun i => processFrame cv (modeAt w i) (w.frames i)) := by
  obtain ⟨run, hrun, herr, hacq, hdet, hexit, hshown, hnonempty⟩ :=
    frameLoop_stream_end cv hc w (K - 1) fuel
      { privacyMode := privacyModeInit, acquired := 0, detections := 0, presented := [] }
      rfl
      (fun i hi => by simpa using hne i hi)
      (fun i hi => by simpa using hkey i hi)
      (by simpa using hend)
      (by omega)
  simp only [Nat.zero_add, List.map_nil, List.nil_append] at hacq hdet hshown
  refine ⟨run, ?_, ?_, hdet, by omega, hexit, herr, ?_, hshown⟩
  · simp only [main, hload, hopen, Bool.not_true, Bool.false_eq_true, if_false]
    exact hrun
  · have hlen := congrArg List.length hshown
    simpa using hlen
  · intro f hf
    rcases hnonempty f hf with h | h
    · simp at h
    · exact h

/-- C7 at `K = 3`: two white frames with a face in the corner, then an empty
frame, no key pressed, the mode moved to 3 during the first pass. -/
theorem C7_stream_end_stops_loop_witness :
    ∃ run, main cvCornerFace studio 5 = some run ∧ run.presented.length = 3 - 1 ∧
      run.detections = 3 - 1 ∧ run.acquired = 3 ∧ run.exit = .returned 0 ∧
      run.stderr = [] ∧ (∀ f ∈ run.presented, f.empty = false) ∧
      run.presented.map (Except.ok : Mat → Except String Mat) =
        (List.range (3 - 1)).map
          (fun i => processFrame cvCornerFace (modeAt studio i) (studio.frames i)) :=
  C7_stream_end_stops_loop cvCornerFace cvCornerFace_contract studio 3 5 rfl rfl
    (by decide) (by decide) (by decide) (by decide) (by decide)

/-! ## C10 -/

/-- C10: if the cascade fails to load, `main` writes the message naming the
cascade file and returns -1; if it loads but the capture does not open, `main`
writes the message naming the video stream and returns -1; in both cases no
frame is acquired, searched or shown, the code is non-zero, and the two
messages differ.  If both succeed and the detector keeps its postcondition,
then as soon as a pass acquires an empty frame or polls the quit key `main`
returns 0. -/
theorem C10_startup_failures_and_exit_codes (cv : OpenCV) (w : World) (fuel : Nat) :
    (w.cascadeLoads = false →
      main cv w fuel = some
        { stderr := ["Error loading face cascade file: haarcascade_frontalface_default.xml"],
          acquired := 0, detections := 0, presented := [], exit := .returned (-1) }) ∧
    (w.cascadeLoads = true → w.capOpened = false →
      main cv w fuel = some
        { stderr := ["Error opening video stream!"],
          acquired := 0, detections := 0, presented := [], exit := .returned (-1) }) ∧
    ((-1 : Int) ≠ 0 ∧
      "Error loading face cascade file: haarcascade_frontalface_default.xml" ≠
        "Error opening video stream!") ∧
    (w.cascadeLoads = true → w.capOpened = true → DetectorContract cv →
      ∀ k, k < fuel →
        (∀ i, i < k → (w.frames i).empty = false ∧ quitKey (w.keys i) = false) →
        ((w.frames k).empty = true ∨ quitKey (w.keys k) = true) →
        ∃ run, main cv w fuel = some run ∧ run.exit = .returned 0 ∧ run.stderr = []) := by
  refine ⟨?_, ?_, ⟨by decide, by decide⟩, ?_⟩
  · intro hload
    simp only [main, hload, Bool.not_false, if_true]
  · intro hload hopen
    simp only [main, hload, hopen, Bool.not_true, Bool.not_false, Bool.false_eq_true,
      if_false, if_true]
  · intro hload hopen hc k hfuel hrun hend
    obtain ⟨run, hr, hexit, herr⟩ :=
      frameLoop_exit_zero cv hc w k fuel
        { privacyMode := privacyModeInit, acquired := 0, detections := 0, presented := [] }
        (fun i hi => by simpa using (hrun i hi).1)
        (fun i hi => by simpa using (hrun i hi).2)
        (by simpa using hend)
        hfuel
    refine ⟨run, ?_, hexit, herr⟩
    simp only [main, hload, hopen, Bool.not_true, Bool.false_eq_true, if_false]
    exact hr

/-- C10 at four concrete runs: the cascade missing, the camera missing, the
stream ending after two frames, and `q` (113) polled in the first pass. -/
theorem C10_startup_failures_and_exit_codes_witness :
    main cvNoFaces { camera 2 (-1) with cascadeLoads := false } 5 = some
        { stderr := ["Error loading face cascade file: haarcascade_frontalface_default.xml"],
          acquired := 0, detections := 0, presented := [], exit := .returned (-1) } ∧
    main cvNoFaces { camera 2 (-1) with capOpened := false } 5 = some
        { stderr := ["Error opening video stream!"],
          acquired := 0, detections := 0, presented := [], exit := .returned (-1) } ∧
    (∃ run, main cvNoFaces (camera 2 (-1)) 5 = some run ∧ run.exit = .returned 0 ∧
      run.stderr = []) ∧
    (∃ run, main cvNoFaces (camera 2 113) 5 = some run ∧ run.exit = .returned 0 ∧
      run.stderr = []) :=
  ⟨(C10_startup_failures_and_exit_codes cvNoFaces
      { camera 2 (-1) with cascadeLoads := false } 5).1 rfl,
    (C10_startup_failures_and_exit_codes cvNoFaces
      { camera 2 (-1) with capOpened := false } 5).2.1 rfl rfl,
    (C10_startup_failures_and_exit_codes cvNoFaces (camera 2 (-1)) 5).2.2.2 rfl rfl
      cvNoFaces_contract 2 (by decide) (by decide) (by decide),
    (C10_startup_failures_and_exit_codes cvNoFaces (camera 2 113) 5).2.2.2 rfl rfl
      cvNoFaces_contract 0 (by decide) (by decide) (by decide)⟩

end FacePrivacyFilter
